import Mathlib

/-!
Verification of the ingestion & retrieval pipeline
(`generate_embeddings.py`, `vector_store.py`, `retrieval.py`, `rag_tool.py`).

Modelling conventions:
* Embedding-vector components are floats in the source; no property below
  depends on float arithmetic, only on vector length and presence, so a
  component is modelled as an `Int` stand-in.
* Network collaborators (the embedding service, the vector index, the chat
  service) are passed in as oracle functions returning `Except`, one call
  per request the source issues; `Except.error` models a raised exception.
* Console `print` diagnostics that the source uses to report outcomes are
  modelled, where a property mentions them, as explicit log events.
-/

namespace RagPipeline

/-- Stand-in for a floating-point scalar (no claim depends on float
arithmetic, only on vector length and presence). -/
abbrev Scalar := Int

/-- An embedding vector: ordered sequence of scalars. -/
abbrev Vec := List Scalar

/-! ## Chunker (`generate_embeddings.py`, `chunk_text`)

`chunk_text` delegates to langchain's `RecursiveCharacterTextSplitter` with
`length_function=len` and `add_start_index=True`, then calls `split_text`,
which returns a list of plain strings.  For input text containing none of
the higher-priority separators (no blank line, newline or space — the case
exercised by every concrete input below), the splitter falls through to the
empty-string separator: it splits the text into single characters and runs
the library's `_merge_splits` accumulation loop with separator length 0.
`popLoop` and `mergeChars` below are that loop, with each character tagged
by its position in the original text so that the true start offset of every
produced chunk is available for comparison with the specification. -/

/-- The inner while-loop of `_merge_splits`: keep dropping the front of the
running window while its length exceeds the overlap, or adding the next
(length-1) piece would exceed the chunk size.  `size` is the chunk size,
`overlap` the chunk overlap. -/
def popLoop (size overlap : Nat) : List (Nat × Char) → List (Nat × Char)
  | [] => []
  | c :: rest =>
    if overlap < (c :: rest).length ∨ size < (c :: rest).length + 1 then
      popLoop size overlap rest
    else c :: rest

/-- The main accumulation loop of `_merge_splits` over position-tagged
characters: when the next character would overflow the window, emit the
window as a chunk and shrink it with `popLoop`; a final non-empty window is
emitted at the end. -/
def mergeChars (size overlap : Nat) :
    List (Nat × Char) → List (Nat × Char) → List (List (Nat × Char))
  | [], current => if current = [] then [] else [current]
  | c :: cs, current =>
    if size < current.length + 1 then
      (if current = [] then [] else [current]) ++
        mergeChars size overlap cs (popLoop size overlap current ++ [c])
    else
      mergeChars size overlap cs (current ++ [c])

/-- The splitter's output on a separator-free text, as (chunk text, start
offset of its first character in the original text) pairs. -/
def splitTextChunks (text : String) (size overlap : Nat) : List (String × Nat) :=
  (mergeChars size overlap text.toList.enum []).map
    (fun run => (String.mk (run.map Prod.snd), (run.head?.map Prod.fst).getD 0))

/-- `chunk_text(text, size, overlap)` from `generate_embeddings.py`: returns
`[]` for empty (falsy) text, otherwise the result of
`text_splitter.split_text(text)` — a list of plain chunk strings.  The
`add_start_index=True` option affects only `create_documents`, not
`split_text`, so no start offsets appear in the returned value. -/
def chunk_text (text : String) (size overlap : Nat) : List String :=
  if text = "" then []
  else (splitTextChunks text size overlap).map Prod.fst

/-- A chunk as the specification's data model describes it: text together
with the character position of its first character in the original text. -/
structure Chunk where
  text : String
  start_offset : Nat
deriving DecidableEq

/-- Modelled from the spec: the chunker as the specification describes it,
producing `Chunk` values that carry their start offsets.  It performs the
same splitting as `chunk_text` but keeps the offsets that `split_text`
discards; used only to compare the code's output against the spec's. -/
def chunk_text_spec (text : String) (size overlap : Nat) : List Chunk :=
  if text = "" then []
  else (splitTextChunks text size overlap).map (fun p => ⟨p.1, p.2⟩)

/-! ## Embedding batcher (`generate_embeddings.py`, `generate_embeddings`)

One embedding request per chunk; a raised exception is caught and recorded
as `None` (here `Option.none`) at that chunk's position, and the loop
continues.  The embedding service is the oracle `embed`: `some v` models a
successful response with vector `v`, `none` a raised exception. -/

/-- `generate_embeddings(chunks, model)`: returns `[]` for an empty chunk
list, otherwise one entry per chunk in order — the embedding on success,
`none` where the request raised. -/
def generate_embeddings (embed : String → Option Vec) : List String → List (Option Vec)
  | [] => []
  | c :: cs => embed c :: generate_embeddings embed cs

/-- `valid_embeddings = [emb for emb in chunk_embeddings if emb is not None]`
from the script's accounting block. -/
def valid_embeddings (embs : List (Option Vec)) : List Vec :=
  embs.filterMap id

/-- Total attempted, as the script reports: the number of chunks. -/
def attempted_count (chunks : List String) : Nat := chunks.length

/-- Succeeded, as the script reports: `len(valid_embeddings)`. -/
def succeeded_count (embs : List (Option Vec)) : Nat :=
  (valid_embeddings embs).length

/-- Failed: the number of positions recorded as `None`, one per
"Error generating embedding" diagnostic the loop printed. -/
def failed_count (embs : List (Option Vec)) : Nat :=
  (embs.filter (fun e => e.isNone)).length

/-! ## Ingestion cache load (`vector_store.py`, `load_data_from_pickle`)

The deserialized cache is a list of items each holding a text and an
embedding; `none` at the outer level models a missing file or an exception
raised while reading or deserializing.  An item's `embedding` field may be
`None` (modelled `Option.none`): the key is present but `len(None)` raises,
which the function's `except` clause turns into the failure result. -/

/-- One cached item: `{"text": ..., "embedding": ...}`. -/
structure CacheRec where
  text : String
  embedding : Option Vec
deriving DecidableEq

/-- `load_data_from_pickle(file_path)`: fails (returning `(None, 0)`) when
the file is missing or unreadable, when the loaded list is empty, or when
computing `len(data[0]['embedding'])` raises; otherwise returns the data
unchanged together with the first record's vector length as the detected
embedding dimension.  Records after the first are not inspected. -/
def load_data_from_pickle (file : Option (List CacheRec)) :
    Option (List CacheRec) × Nat :=
  match file with
  | none => (none, 0)
  | some [] => (none, 0)
  | some (r :: rs) =>
    match r.embedding with
    | none => (none, 0)
    | some v => (some (r :: rs), v.length)

/-! ## Index builder (`vector_store.py`, main block)

The state of the one named Qdrant collection (`cosmo_challenge`) is
modelled directly: `none` when the collection does not exist, `some info`
when it does.  `recreate_collection` deletes any existing collection of
that name and creates a fresh, empty one with the given dimension and
cosine distance; whether that call raises is the oracle flag
`recreateFails`, and whether the fallback `get_collection` raises is
`getFails`.  `uuid.uuid4()` is modelled as a fresh-identifier supply: the
`fresh` counter below, each generated identifier being distinct. -/

/-- One point upserted into the index: identifier, vector, and the payload
text stored with it. -/
structure IndexedPoint where
  id : Nat
  vector : Vec
  payload_text : String
deriving DecidableEq

/-- The named collection's configuration and contents. -/
structure CollectionInfo where
  dim : Nat
  distance_cosine : Bool
  points : List IndexedPoint
deriving DecidableEq

/-- How the provisioning block of the script ends. -/
inductive ProvisionOutcome where
  /-- Falls through to the upsert phase. -/
  | proceed
  /-- `exit()` after reporting that the existing collection's dimension
  differs from the data's. -/
  | exitDimMismatch (existing requested : Nat)
  /-- `exit()` after failing to verify the existing collection. -/
  | exitUnverified
deriving DecidableEq

/-- The create-or-recreate block of `vector_store.py`: first tries
`recreate_collection` (which destroys any existing collection of that name
and creates an empty one of the requested dimension with cosine distance);
only if that call raises does it fall back to `get_collection` and compare
the existing dimension against the data's, exiting on mismatch or when the
collection cannot be inspected. -/
def provision_collection (existing : Option CollectionInfo) (vector_dim : Nat)
    (recreateFails getFails : Bool) : Option CollectionInfo × ProvisionOutcome :=
  if recreateFails then
    if getFails then (existing, .exitUnverified)
    else
      match existing with
      | none => (existing, .exitUnverified)
      | some info =>
        if info.dim ≠ vector_dim then
          (existing, .exitDimMismatch info.dim vector_dim)
        else (existing, .proceed)
  else
    (some ⟨vector_dim, true, []⟩, .proceed)

/-- Whether the upsert-preparation loop keeps a record: it is skipped when
`item.get('embedding') is None or len(item['embedding']) != vector_dim`. -/
def record_valid (vector_dim : Nat) (r : CacheRec) : Bool :=
  match r.embedding with
  | none => false
  | some v => v.length == vector_dim

/-- The `points_to_upsert` preparation loop of `vector_store.py`: each
record whose embedding is absent or of the wrong length is skipped with a
warning (second component counts the warnings printed); every other record
becomes one `PointStruct` with a freshly generated identifier (the `fresh`
counter models the `uuid.uuid4()` supply), its vector, and a payload
holding its text. -/
def prepare_points (vector_dim fresh : Nat) :
    List CacheRec → List IndexedPoint × Nat
  | [] => ([], 0)
  | item :: rest =>
    match item.embedding with
    | none =>
      let r := prepare_points vector_dim fresh rest
      (r.1, r.2 + 1)
    | some v =>
      if v.length ≠ vector_dim then
        let r := prepare_points vector_dim fresh rest
        (r.1, r.2 + 1)
      else
        let r := prepare_points vector_dim (fresh + 1) rest
        (⟨fresh, v, item.text⟩ :: r.1, r.2)

/-! ## Retriever (`retrieval.py`, `retrieve_relevant_chunks`)

The embedding service and the index are oracles returning `Except`;
`Except.error` models a raised exception.  The function's own result is
reported as an `Except` so that "returns normally" (`Except.ok`) and
"raises" (`Except.error`) are distinguishable in statements — the source
wraps its whole body in `try/except` and returns a list on every path, so
the model never produces `Except.error`.  Network requests actually issued
and diagnostics actually printed are recorded alongside the result. -/

/-- A network request issued by the retriever. -/
inductive NetOp where
  /-- `openai_client.embeddings.create(input=query_text, ...)`. -/
  | embedRequest (query : String)
  /-- `qdrant_client.query_points(..., limit=top_k, with_payload=True)`. -/
  | indexQuery (top_k : Nat)
deriving DecidableEq

/-- A diagnostic the retriever prints. -/
inductive LogEvent where
  /-- "Error: Query text cannot be empty." -/
  | emptyQueryError
  /-- "Retrieving top k relevant chunks for query ..." -/
  | retrievingBanner
  /-- "Found n results from Qdrant." -/
  | foundResults (n : Nat)
  /-- "Error during retrieval: ..." -/
  | retrievalError
deriving DecidableEq

/-- A point returned by `query_points`: a payload (absent, or a dictionary
modelled as a key-value list) and a similarity score. -/
structure Hit where
  payload : Option (List (String × String))
  score : Scalar
deriving DecidableEq

/-- One run of `retrieve_relevant_chunks`: the value produced (never
`Except.error`, since the source catches every exception), the network
requests issued, and the diagnostics printed, in order. -/
structure RetrieveRun where
  result : Except String (List (String × Scalar))
  calls : List NetOp
  logs : List LogEvent

/-- `retrieve_relevant_chunks(query_text, top_k)`: rejects a falsy (empty)
query with a printed diagnostic and `return []` before any request;
otherwise embeds the query, queries the index, and keeps `(text, score)`
for each hit whose payload is truthy and contains the key `"text"`.  Any
exception from either request is caught, logged, and converted to
`return []`. -/
def retrieve_relevant_chunks (embedSvc : String → Except String Vec)
    (index : Vec → Nat → Except String (List Hit))
    (query_text : String) (top_k : Nat) : RetrieveRun :=
  if query_text = "" then
    { result := .ok [], calls := [], logs := [.emptyQueryError] }
  else
    match embedSvc query_text with
    | .error _ =>
      { result := .ok [], calls := [.embedRequest query_text],
        logs := [.retrievingBanner, .retrievalError] }
    | .ok v =>
      match index v top_k with
      | .error _ =>
        { result := .ok [], calls := [.embedRequest query_text, .indexQuery top_k],
          logs := [.retrievingBanner, .retrievalError] }
      | .ok pts =>
        { result := .ok (pts.filterMap (fun h =>
            match h.payload with
            | none => none
            | some kvs =>
              if kvs = [] then none
              else
                match kvs.lookup "text" with
                | some t => some (t, h.score)
                | none => none)),
          calls := [.embedRequest query_text, .indexQuery top_k],
          logs := [.retrievingBanner, .foundResults pts.length] }

/-! ## Answer assembler (`rag_tool.py`, `generate_answer`)

The chat service is an oracle from the assembled prompt to an answer or a
raised exception.  The whole body sits in `try/except`, with the `except`
clause returning a fixed error string, so the function is total. -/

/-- The f-string prompt template of `generate_answer`, instantiated with
the joined context and the query. -/
def rag_prompt (context_string query : String) : String :=
  "\n        You are an assistant designed to answer questions based ONLY on the provided context below.\n        Read the context carefully.\n        Answer the user\x27s question using only the information given in the context.\n        Do not use any external knowledge or make assumptions.\n        If the context does not contain the information needed to answer the question, state that clearly.\n\n        Provided Context:\n        ---\n        " ++ context_string ++ "\n        ---\n\n        User\x27s Question: " ++ query ++ "\n\n        Answer based solely on the context:\n        "

/-- `generate_answer(query, top_k)`: retrieves via
`retrieve_relevant_chunks`; an empty retrieval result returns the fixed
no-information string; otherwise the chunk texts are joined with a blank
line into the prompt and the chat response's content, stripped, is
returned.  Any exception raised by a step is caught and converted to the
fixed error string. -/
def generate_answer (embedSvc : String → Except String Vec)
    (index : Vec → Nat → Except String (List Hit))
    (chat : String → Except String String)
    (query : String) (top_k : Nat) : String :=
  match (retrieve_relevant_chunks embedSvc index query top_k).result with
  | .error _ => "An error occurred while generating the answer."
  | .ok retrieved_results =>
    if retrieved_results = [] then
      "No relevant information found in the context."
    else
      let context_string :=
        String.intercalate "\n\n" (retrieved_results.map Prod.fst)
      match chat (rag_prompt context_string query) with
      | .error _ => "An error occurred while generating the answer."
      | .ok answer => answer.trim

/-! ## Theorems -/

/-- C7: chunking the literal string "ABCDEFGHIJ" with size 4 and overlap 2
yields exactly the chunks "ABCD", "CDEF", "EFGH", "GHIJ" in that order,
and chunk i is the length-4 substring of the original text starting at
character offset 2·i — the stated offsets 0, 2, 4, 6. -/
theorem chunk_literal_scenario :
    chunk_text "ABCDEFGHIJ" 4 2 = ["ABCD", "CDEF", "EFGH", "GHIJ"] ∧
    ∀ i : Fin 4,
      (chunk_text "ABCDEFGHIJ" 4 2).getD i.val "" =
        String.mk ((("ABCDEFGHIJ".toList).drop (2 * i.val)).take 4) := by
  decide

/-- C5 counterexample: the chunker's output carries no start offsets.  On
the text "aaaa" with size 2 and overlap 1 the code produces the three
identical bare strings "aa", "aa", "aa", whose true start offsets are 0, 1
and 2; since equal produced values would have to carry different offsets,
no assignment of a start offset to each produced chunk value matches the
chunks' positions in the original text. -/
theorem chunker_offsets_not_carried :
    chunk_text "aaaa" 2 1 = ["aa", "aa", "aa"] ∧
    (chunk_text_spec "aaaa" 2 1).map Chunk.start_offset = [0, 1, 2] ∧
    ¬ ∃ off : String → Nat, ∀ i : Fin 3,
        off ((chunk_text "aaaa" 2 1).getD i.val "") =
          ((chunk_text_spec "aaaa" 2 1).getD i.val ⟨"", 0⟩).start_offset := by
  refine ⟨by decide, by decide, ?_⟩
  rintro ⟨off, h⟩
  have h0 := h 0
  have h1 := h 1
  have c0 : (chunk_text "aaaa" 2 1).getD (0 : Fin 3).val "" = "aa" := by decide
  have c1 : (chunk_text "aaaa" 2 1).getD (1 : Fin 3).val "" = "aa" := by decide
  have s0 : ((chunk_text_spec "aaaa" 2 1).getD (0 : Fin 3).val ⟨"", 0⟩).start_offset
      = 0 := by decide
  have s1 : ((chunk_text_spec "aaaa" 2 1).getD (1 : Fin 3).val ⟨"", 0⟩).start_offset
      = 1 := by decide
  rw [c0, s0] at h0
  rw [c1, s1] at h1
  omega

/-- C5 amended: each chunk produced by `chunk_text` is the chunk's text
only — exactly the specification chunker's output with every start offset
dropped, since `split_text` returns bare strings and `add_start_index`
does not apply to it. -/
theorem chunk_text_drops_offsets (text : String) (size overlap : Nat) :
    chunk_text text size overlap
      = (chunk_text_spec text size overlap).map Chunk.text := by
  unfold chunk_text chunk_text_spec
  by_cases h : text = "" <;> simp [h, List.map_map, Function.comp]

/-- The embedding loop appends exactly one result per chunk in order: it is
the elementwise application of the embedding call. -/
theorem generate_embeddings_eq_map (embed : String → Option Vec)
    (chunks : List String) :
    generate_embeddings embed chunks = chunks.map embed := by
  induction chunks with
  | nil => rfl
  | cons c cs ih => simp [generate_embeddings, ih]

/-- C3: for every chunk sequence and every pattern of per-item embedding
failures (the oracle `embed`), the batcher's output has exactly the length
of the input and position i holds the embedding call's outcome for input
chunk i — a vector on success, `none` on failure — and the run is total:
no combination of failures aborts it. -/
theorem generate_embeddings_alignment (embed : String → Option Vec)
    (chunks : List String) :
    (generate_embeddings embed chunks).length = chunks.length ∧
    ∀ i : Fin chunks.length,
      (generate_embeddings embed chunks).getD i.val none = embed (chunks.get i) := by
  rw [generate_embeddings_eq_map]
  refine ⟨List.length_map _ _, fun i => ?_⟩
  have hi : i.val < (chunks.map embed).length := by
    simp [i.isLt]
  rw [List.getD_eq_getElem _ _ hi]
  simp

/-- C6: the counts the script reports always account for every chunk —
succeeded plus failed equals attempted, and attempted is the input length;
and in the literal three-chunk scenario where exactly the second embedding
call fails, the output is [vector, absent, vector] with attempted = 3,
succeeded = 2, failed = 1. -/
theorem embedding_accounting (embed : String → Option Vec)
    (c1 c2 c3 : String) (v1 v3 : Vec)
    (h1 : embed c1 = some v1) (h2 : embed c2 = none) (h3 : embed c3 = some v3) :
    (∀ chunks : List String,
      succeeded_count (generate_embeddings embed chunks) +
          failed_count (generate_embeddings embed chunks)
        = attempted_count chunks) ∧
    generate_embeddings embed [c1, c2, c3] = [some v1, none, some v3] ∧
    attempted_count [c1, c2, c3] = 3 ∧
    succeeded_count (generate_embeddings embed [c1, c2, c3]) = 2 ∧
    failed_count (generate_embeddings embed [c1, c2, c3]) = 1 := by
  have hcounts : ∀ chunks : List String,
      succeeded_count (generate_embeddings embed chunks) +
          failed_count (generate_embeddings embed chunks)
        = attempted_count chunks := by
    intro chunks
    induction chunks with
    | nil => rfl
    | cons c cs ih =>
      cases hc : embed c <;>
        simp [generate_embeddings, succeeded_count, valid_embeddings,
          failed_count, attempted_count, hc] at ih ⊢ <;>
        omega
  refine ⟨hcounts, ?_, rfl, ?_, ?_⟩
  · simp [generate_embeddings, h1, h2, h3]
  · simp [generate_embeddings, succeeded_count, valid_embeddings, h1, h2, h3]
  · simp [generate_embeddings, failed_count, h1, h2, h3]

/-- Witness for C6 at a concrete input: three chunks, the second of which
fails. -/
theorem embedding_accounting_witness :
    generate_embeddings (fun s => if s = "b" then none else some [1])
        ["a", "b", "c"] = [some [1], none, some [1]] ∧
    succeeded_count (generate_embeddings
        (fun s => if s = "b" then none else some [1]) ["a", "b", "c"]) = 2 ∧
    failed_count (generate_embeddings
        (fun s => if s = "b" then none else some [1]) ["a", "b", "c"]) = 1 :=
  have h := embedding_accounting (fun s => if s = "b" then none else some [1])
    "a" "b" "c" [1] [1] (by decide) (by decide) (by decide)
  ⟨h.2.1, h.2.2.2.1, h.2.2.2.2⟩

/-- C4 counterexample: a cache holding a dimension-2 record followed by a
dimension-1 record loads successfully with reported dimension 2, even
though the second record's vector length differs — the mixed-dimension
cache does not fail to load. -/
theorem mixed_dimension_cache_loads :
    load_data_from_pickle (some [⟨"a", some [1, 2]⟩, ⟨"b", some [3]⟩])
      = (some [⟨"a", some [1, 2]⟩, ⟨"b", some [3]⟩], 2) ∧
    (⟨"b", some [3]⟩ : CacheRec).embedding.map List.length ≠ some 2 := by
  decide

/-- C4 amended: for every cache that loads successfully, the reported
dimension equals the first record's vector length, and loading succeeds
whenever the first record carries a vector — the records after the first
are returned unchanged without having their vector lengths inspected, so a
cache with mixed vector lengths still loads (mismatched records are only
skipped later, at index-build time). -/
theorem load_dimension_from_first_record (r : CacheRec) (rs : List CacheRec)
    (v : Vec) (h : r.embedding = some v) :
    load_data_from_pickle (some (r :: rs)) = (some (r :: rs), v.length) := by
  simp [load_data_from_pickle, h]

/-- Witness for C4's amended theorem at a concrete mixed-dimension cache. -/
theorem load_dimension_from_first_record_witness :
    load_data_from_pickle (some [⟨"a", some [5, 6, 7]⟩, ⟨"b", some [9]⟩])
      = (some [⟨"a", some [5, 6, 7]⟩, ⟨"b", some [9]⟩], 3) :=
  load_dimension_from_first_record ⟨"a", some [5, 6, 7]⟩ [⟨"b", some [9]⟩]
    [5, 6, 7] rfl

/-- C1 counterexample: the named collection exists with dimension 5 and
holds a point, the cache's dimension is 3, and the index is reachable (so
`recreate_collection` succeeds): the script silently recreates the
collection as an empty dimension-3 collection — destroying the existing
contents — and proceeds to upsert, instead of surfacing a fatal
configuration conflict. -/
theorem mismatched_collection_silently_recreated :
    provision_collection (some ⟨5, true, [⟨0, [1, 1, 1, 1, 1], "old"⟩]⟩) 3
        false false
      = (some ⟨3, true, []⟩, .proceed) := by
  decide

/-- C1 amended: whenever `recreate_collection` succeeds (the reachable
index, whether or not the collection already exists), the script
unconditionally recreates the collection as an empty one of the data's
dimension with cosine distance and proceeds to upsert — destroying any
existing contents; the fatal dimension conflict is surfaced only when
recreation itself fails: then a mismatched existing dimension exits with
the two dimensions reported, and a matching one proceeds to upsert into
the untouched collection. -/
theorem provision_collection_behaviour (existing : Option CollectionInfo)
    (vector_dim : Nat) :
    provision_collection existing vector_dim false false
      = (some ⟨vector_dim, true, []⟩, .proceed) ∧
    (∀ info, existing = some info → info.dim ≠ vector_dim →
      provision_collection existing vector_dim true false
        = (existing, .exitDimMismatch info.dim vector_dim)) ∧
    (∀ info, existing = some info → info.dim = vector_dim →
      provision_collection existing vector_dim true false
        = (existing, .proceed)) := by
  refine ⟨rfl, ?_, ?_⟩ <;> rintro info rfl h <;> simp [provision_collection, h]

/-- Witness for C1's amended theorem: a dimension-5 collection against
dimension-3 data when recreation fails exits with the mismatch reported. -/
theorem provision_collection_behaviour_witness :
    provision_collection (some ⟨5, true, []⟩) 3 true false
      = (some ⟨5, true, []⟩, .exitDimMismatch 5 3) :=
  (provision_collection_behaviour (some ⟨5, true, []⟩) 3).2.1
    ⟨5, true, []⟩ rfl (by decide)

/-- C8: the upsert-preparation loop keeps exactly the records whose
embedding is present with length equal to the collection dimension: the
prepared points list the surviving records' vectors and payload texts in
order, the warning count equals the number of excluded records, and every
prepared point carries a freshly generated identifier, all identifiers
pairwise distinct. -/
theorem prepare_points_skip_rule (vector_dim fresh : Nat)
    (records : List CacheRec) :
    (prepare_points vector_dim fresh records).1.map
        (fun p => (p.vector, p.payload_text))
      = (records.filter (record_valid vector_dim)).map
          (fun r => (r.embedding.getD [], r.text)) ∧
    (prepare_points vector_dim fresh records).2
      = (records.filter (fun r => ! record_valid vector_dim r)).length ∧
    (prepare_points vector_dim fresh records).1.map IndexedPoint.id
      = List.range' fresh (records.filter (record_valid vector_dim)).length ∧
    ((prepare_points vector_dim fresh records).1.map IndexedPoint.id).Nodup := by
  have main : ∀ (f : Nat) (rs : List CacheRec),
      (prepare_points vector_dim f rs).1.map
          (fun p => (p.vector, p.payload_text))
        = (rs.filter (record_valid vector_dim)).map
            (fun r => (r.embedding.getD [], r.text)) ∧
      (prepare_points vector_dim f rs).2
        = (rs.filter (fun r => ! record_valid vector_dim r)).length ∧
      (prepare_points vector_dim f rs).1.map IndexedPoint.id
        = List.range' f (rs.filter (record_valid vector_dim)).length := by
    intro f rs
    induction rs generalizing f with
    | nil => simp [prepare_points]
    | cons item rest ih =>
      cases hemb : item.embedding with
      | none =>
        simpa [prepare_points, record_valid, hemb] using ih f
      | some v =>
        by_cases hlen : v.length = vector_dim
        · simpa [prepare_points, record_valid, hemb, hlen, List.range'] using
            ih (f + 1)
        · simpa [prepare_points, record_valid, hemb, hlen] using ih f
  refine ⟨(main fresh records).1, (main fresh records).2.1, (main fresh records).2.2, ?_⟩
  rw [(main fresh records).2.2]
  exact List.nodup_range' fresh _

/-- C2 counterexample: with a non-empty query, a working embedding call,
and an unreachable index (the `query_points` call raises), the retriever
returns the empty sequence as a normal value — `Except.ok []` — not an
error, so the empty-vs-exception split the claim describes does not exist. -/
theorem retrieval_failure_returns_empty :
    (retrieve_relevant_chunks (fun _ => .ok [1, 2, 3])
        (fun _ _ => .error "connection refused")
        "How many samples are there in DeltaBench?" 3).result
      = .ok [] := by
  rfl

/-- C2 amended: for every non-empty query, a reachable index yielding no
candidate points gives the empty sequence — and a failing embedding call
or a failing index call gives the very same empty sequence as a normal
return, with the failure only logged, so callers cannot distinguish "no
results" from "retrieval failed" by the returned value; the function never
raises. -/
theorem retrieve_empty_vs_failure (embedSvc : String → Except String Vec)
    (index : Vec → Nat → Except String (List Hit))
    (query : String) (top_k : Nat) (hq : query ≠ "") :
    (∀ v, embedSvc query = .ok v → index v top_k = .ok [] →
      (retrieve_relevant_chunks embedSvc index query top_k).result = .ok []) ∧
    (∀ e, embedSvc query = .error e →
      (retrieve_relevant_chunks embedSvc index query top_k).result = .ok [] ∧
      (retrieve_relevant_chunks embedSvc index query top_k).logs
        = [.retrievingBanner, .retrievalError]) ∧
    (∀ v e, embedSvc query = .ok v → index v top_k = .error e →
      (retrieve_relevant_chunks embedSvc index query top_k).result = .ok [] ∧
      (retrieve_relevant_chunks embedSvc index query top_k).logs
        = [.retrievingBanner, .retrievalError]) := by
  refine ⟨fun v hv hidx => ?_, fun e he => ?_, fun v e hv hidx => ?_⟩
  · simp [retrieve_relevant_chunks, hq, hv, hidx]
  · simp [retrieve_relevant_chunks, hq, he]
  · simp [retrieve_relevant_chunks, hq, hv, hidx]

/-- Witness for C2's amended theorem: a failing embedding call on a
concrete non-empty query yields the normal empty return with the failure
logged. -/
theorem retrieve_empty_vs_failure_witness :
    (retrieve_relevant_chunks (fun _ => .error "timeout")
        (fun _ _ => .ok []) "q" 3).result = .ok [] ∧
    (retrieve_relevant_chunks (fun _ => .error "timeout")
        (fun _ _ => .ok []) "q" 3).logs
      = [.retrievingBanner, .retrievalError] :=
  (retrieve_empty_vs_failure (fun _ => .error "timeout") (fun _ _ => .ok [])
    "q" 3 (by decide)).2.1 "timeout" rfl

/-- C9: for the empty query string the retriever returns the empty result
immediately with the specific empty-query diagnostic and issues no network
request at all — neither an embedding request nor an index query —
whatever the collaborators would have answered. -/
theorem empty_query_fail_fast (embedSvc : String → Except String Vec)
    (index : Vec → Nat → Except String (List Hit)) (top_k : Nat) :
    retrieve_relevant_chunks embedSvc index "" top_k
      = { result := .ok [], calls := [], logs := [.emptyQueryError] } := by
  rfl

/-- C10: `generate_answer` always returns a string, and its value is fully
characterized: the fixed no-information string, the fixed error string, or
the stripped chat answer; in particular an empty retrieval yields exactly
"No relevant information found in the context." and a raised exception in
the generation step yields exactly "An error occurred while generating the
answer." — no exception propagates. -/
theorem generate_answer_fallbacks (embedSvc : String → Except String Vec)
    (index : Vec → Nat → Except String (List Hit))
    (chat : String → Except String String) (query : String) (top_k : Nat) :
    (generate_answer embedSvc index chat query top_k
        = "No relevant information found in the context." ∨
      generate_answer embedSvc index chat query top_k
        = "An error occurred while generating the answer." ∨
      ∃ r a, (retrieve_relevant_chunks embedSvc index query top_k).result = .ok r ∧
        chat (rag_prompt (String.intercalate "\n\n" (r.map Prod.fst)) query)
          = .ok a ∧
        generate_answer embedSvc index chat query top_k = a.trim) ∧
    ((retrieve_relevant_chunks embedSvc index query top_k).result = .ok [] →
      generate_answer embedSvc index chat query top_k
        = "No relevant information found in the context.") ∧
    (∀ r e, (retrieve_relevant_chunks embedSvc index query top_k).result = .ok r →
      r ≠ [] →
      chat (rag_prompt (String.intercalate "\n\n" (r.map Prod.fst)) query)
        = .error e →
      generate_answer embedSvc index chat query top_k
        = "An error occurred while generating the answer.") := by
  refine ⟨?_, fun hres => ?_, fun r e hres hr hc => ?_⟩
  · cases hres : (retrieve_relevant_chunks embedSvc index query top_k).result with
    | error err => exact Or.inr (Or.inl (by simp [generate_answer, hres]))
    | ok r =>
      by_cases hr : r = []
      · exact Or.inl (by simp [generate_answer, hres, hr])
      · cases hc : chat (rag_prompt (String.intercalate "\n\n" (r.map Prod.fst))
            query) with
        | error err =>
          exact Or.inr (Or.inl (by simp [generate_answer, hres, hr, hc]))
        | ok a =>
          exact Or.inr (Or.inr ⟨r, a, rfl, hc,
            by simp [generate_answer, hres, hr, hc]⟩)
  · simp [generate_answer, hres]
  · simp [generate_answer, hres, hr, hc]

/-- Witness for C10 at concrete collaborators: a reachable but empty index
gives exactly the no-information string. -/
theorem generate_answer_fallbacks_witness :
    generate_answer (fun _ => .ok [1]) (fun _ _ => .ok [])
        (fun _ => .ok "hi") "q" 3
      = "No relevant information found in the context." :=
  (generate_answer_fallbacks (fun _ => .ok [1]) (fun _ _ => .ok [])
    (fun _ => .ok "hi") "q" 3).2.1 rfl

end RagPipeline
